import Mathlib

/-!
Verification development for the user-avatar LoRA pipeline engine.

The repository is a Python service orchestrating a multi-stage video
generation pipeline (identity training, speech synthesis, talking-head
video synthesis, product compositing, enhancement, remote upload).
This file is a shallow embedding of the orchestration core
(`app/queue/tasks.py`, `app/api/routes.py`, `app/database/models.py`,
`app/storage/s3_client.py`, `app/identity_engine/*`,
`app/tts_engine/elevenlabs_client.py`) in Lean.

Conventions of the embedding:
* MongoDB collections are lists of documents; `find_one` is the first
  match, `update_one` updates the first match, `insert_one` appends.
* `datetime.utcnow()` is a `Nat` tick supplied by the caller and
  threaded as a counter where a task reads the clock more than once.
* External stage collaborators (face detection, the remote TTS API,
  SadTalker, the compositor internals, the enhancement filters, boto3)
  are oracles: parameters recording the result each collaborator call
  would return, including the possibility of a raised exception
  (`Except`), exactly at the granularity the orchestrator observes.
* Python falsy checks on returned paths are modelled by `Option String`
  (`none` = `None`/empty); raised exceptions by `Except`.
-/

namespace AvatarPipeline

/-! ### Status enums — `app/database/models.py`

`TrainingStatus` and `JobStatus` are string-valued enums; the database
stores the `.value` strings. -/

inductive TrainingStatus
  | pending
  | processing
  | completed
  | failed
deriving DecidableEq

def TrainingStatus.value : TrainingStatus → String
  | .pending => "pending"
  | .processing => "processing"
  | .completed => "completed"
  | .failed => "failed"

inductive JobStatus
  | pending
  | processing
  | completed
  | failed
deriving DecidableEq

def JobStatus.value : JobStatus → String
  | .pending => "pending"
  | .processing => "processing"
  | .completed => "completed"
  | .failed => "failed"

/-! ### Documents — `user_doc` and `job_doc` in `app/database/models.py`

The field lists are exactly those of the source builders.  Note that the
user document has no error/reason field of any kind. -/

structure UserDoc where
  user_id : String
  lora_path : Option String
  voice_id : Option String
  training_status : String
  created_at : Nat
  updated_at : Nat
deriving DecidableEq

structure JobDoc where
  job_id : String
  user_id : String
  script_text : String
  product_image_path : Option String
  status : String
  video_path : Option String
  s3_url : Option String
  error_message : Option String
  created_at : Nat
  completed_at : Option Nat
deriving DecidableEq

/-- `user_doc(user_id=..., training_status=...)` with the optional
fields left at their defaults (`None`), as the call sites use it. -/
def user_doc (uid : String) (training_status : String) (now : Nat) : UserDoc :=
  { user_id := uid
    lora_path := none
    voice_id := none
    training_status := training_status
    created_at := now
    updated_at := now }

/-- `job_doc(job_id=..., user_id=..., script_text=..., product_image_path=...)`
with the remaining fields at their defaults (status `"pending"`, no video,
no remote URL, no error, no completion timestamp). -/
def job_doc (jid uid script : String) (product : Option String) (now : Nat) : JobDoc :=
  { job_id := jid
    user_id := uid
    script_text := script
    product_image_path := product
    status := JobStatus.pending.value
    video_path := none
    s3_url := none
    error_message := none
    created_at := now
    completed_at := none }

/-! ### Collection operations

`find_one({key: k})` returns the first document whose key matches;
`update_one({key: k}, {"$set": ...})` rewrites the first matching
document; `insert_one` appends. -/

def updateFirst {α : Type} (p : α → Bool) (f : α → α) : List α → List α
  | [] => []
  | x :: xs => if p x then f x :: xs else x :: updateFirst p f xs

def findUser (users : List UserDoc) (uid : String) : Option UserDoc :=
  users.find? (fun u => u.user_id == uid)

def findJob (jobs : List JobDoc) (jid : String) : Option JobDoc :=
  jobs.find? (fun j => j.job_id == jid)

def updateUser (uid : String) (f : UserDoc → UserDoc) (users : List UserDoc) :
    List UserDoc :=
  updateFirst (fun u => u.user_id == uid) f users

def updateJob (jid : String) (f : JobDoc → JobDoc) (jobs : List JobDoc) :
    List JobDoc :=
  updateFirst (fun j => j.job_id == jid) f jobs

instance {ε α : Type} [DecidableEq ε] [DecidableEq α] : DecidableEq (Except ε α)
  | .error e, .error f =>
    if h : e = f then isTrue (congrArg Except.error h)
    else isFalse (fun hc => h (Except.error.inj hc))
  | .error _, .ok _ => isFalse (fun hc => Except.noConfusion hc)
  | .ok _, .error _ => isFalse (fun hc => Except.noConfusion hc)
  | .ok a, .ok b =>
    if h : a = b then isTrue (congrArg Except.ok h)
    else isFalse (fun hc => h (Except.ok.inj hc))

/-! ### Remote storage URLs — `app/storage/s3_client.py`

Strings are modelled as character lists so that the two string
operations `S3Client.extract_key_from_url` performs — Python's
`str.replace("s3://", "")` (left-to-right removal of every occurrence)
and `str.split("/", 1)` (split at the first slash) — can be embedded
directly. -/

/-- The character sequence of the literal `"s3://"`. -/
def s3pat : List Char := ['s', '3', ':', '/', '/']

/-- Python `s.replace("s3://", "")`: scan left to right, removing each
(non-overlapping) occurrence of `"s3://"`. -/
def eraseS3 : List Char → List Char
  | 's' :: '3' :: ':' :: '/' :: '/' :: rest => eraseS3 rest
  | c :: rest => c :: eraseS3 rest
  | [] => []

/-- Python `s.split("/", 1)`: `none` when the string has no slash
(Python would return a one-element list), otherwise the pieces before
and after the first slash. -/
def splitFirstSlash : List Char → Option (List Char × List Char)
  | [] => none
  | c :: rest =>
    if c = '/' then some ([], rest)
    else
      match splitFirstSlash rest with
      | none => none
      | some (a, b) => some (c :: a, b)

/-- `S3Client.extract_key_from_url`, for URLs in the `s3://bucket/key`
format.  The source's `elif "amazonaws.com" in s3_url` branch handles
`https://` URLs only and is unreachable for any input that starts with
`"s3://"`, which is the only shape this development feeds it; such
inputs that survive the prefix test but have no slash left after the
removal fall through to `return None`, embedded here as `none`. -/
def extract_key_from_url (s3_url : List Char) : Option (List Char) :=
  if s3pat.isPrefixOf s3_url then
    match splitFirstSlash (eraseS3 s3_url) with
    | some (_, key) => some key
    | none => none
  else
    none

/-- The URL string `S3Client.upload_video` builds on its success path:
`f"s3://{self.bucket_name}/{s3_key}"`. -/
def mkS3Url (bucket key : List Char) : List Char :=
  s3pat ++ bucket ++ '/' :: key

/-- `S3Client.upload_video`: returns `None` when the client is
unconfigured, when the local file is missing, or when the boto3 call
raises `ClientError`; otherwise the `s3://bucket/key` URL.  The three
environment conditions are oracle booleans. -/
def upload_video (configured fileFound clientOk : Bool)
    (bucket key : List Char) : Option (List Char) :=
  if configured && fileFound && clientOk then some (mkS3Url bucket key)
  else none

/-! ### The per-user dataset directory —
`app/identity_engine/preprocessor.py`, `caption_generator.py`,
`lora_trainer.py`

`FacePreprocessor.process_batch` writes its outputs flat into
`DATASETS_DIR/<user_id>/` as `f"{idx:04d}.jpg"`,
`CaptionGenerator.create_caption_files` writes `Path(p).with_suffix(".txt")`
next to each processed image, and `LoRATrainer.validate_dataset` globs
`*.jpg` (non-recursively) in that directory and demands the sibling
`.txt` for each.  The directory is modelled as a flag (`os.path.exists`
on the directory) plus the set of contained files, a file being its stem
together with its extension; file contents never influence the
orchestrator, so they are not modelled.  Files of extensions other than
`.jpg`/`.txt` are invisible to every one of these operations and are
omitted. -/

inductive FileExt
  | jpg
  | txt
deriving DecidableEq

structure DirState where
  dirThere : Bool
  entries : List (String × FileExt)
deriving DecidableEq

/-- Writing a file: creates it, or overwrites in place (set semantics). -/
def writeEntry (d : DirState) (e : String × FileExt) : DirState :=
  { d with entries := if e ∈ d.entries then d.entries else e :: d.entries }

/-- Python `f"{n:04d}"`. -/
def pad4 (n : Nat) : String :=
  let s := toString n
  String.mk (List.replicate (4 - s.length) '0') ++ s

/-- The body of the `for idx, image_path in enumerate(image_paths)`
loop of `process_batch`. -/
def pbStep (faces : Nat → String → Bool) (acc : DirState × List String)
    (p : Nat × String) : DirState × List String :=
  if faces p.1 p.2 then
    (writeEntry acc.1 (pad4 p.1, FileExt.jpg), acc.2 ++ [pad4 p.1])
  else acc

/-- `FacePreprocessor.process_batch(image_paths, user_id)`: `mkdir` the
dataset directory, then for each `(idx, image_path)` of
`enumerate(image_paths)` run `process_image`; on success the output
`f"{idx:04d}.jpg"` is written and collected.  Whether face detection,
alignment and the `imwrite` succeed for a given input is the oracle
`faces idx image_path`; the returned processed paths are represented by
their stems (`pad4 idx`). -/
def process_batch (faces : Nat → String → Bool) (image_paths : List String)
    (d : DirState) : DirState × List String :=
  image_paths.enum.foldl (pbStep faces) ({ d with dirThere := true }, [])

/-- `CaptionGenerator.create_caption_files(user_id, image_paths)`: write
`Path(p).with_suffix(".txt")` for every processed image (the caption
text itself never influences control flow). -/
def create_caption_files (stems : List String) (d : DirState) : DirState :=
  stems.foldl (fun acc s => writeEntry acc (s, FileExt.txt)) d

/-- `LoRATrainer.validate_dataset(dataset_path)`: the directory exists,
it holds at least one `*.jpg`, and every `*.jpg` has its `.txt`
sibling. -/
def validate_dataset (d : DirState) : Bool :=
  if !d.dirThere then false
  else
    let jpgs := d.entries.filter (fun e => e.2 == FileExt.jpg)
    if jpgs.isEmpty then false
    else jpgs.all (fun e => decide ((e.1, FileExt.txt) ∈ d.entries))

/-! ### The training task — `train_identity_task` in `app/queue/tasks.py` -/

def DATASETS_DIR : String := "/workspace/datasets"
def LORA_STORAGE_DIR : String := "/workspace/lora_storage"
def VIDEO_RAW_DIR : String := "/workspace/video_raw"
def VIDEO_FINAL_DIR : String := "/workspace/video_final"
def AUDIO_DIR : String := "/workspace/audio"

structure TrainOracles where
  faces : Nat → String → Bool
  trainOk : Bool

/-- The dictionary `train_identity_task` returns. -/
structure TrainTaskResult where
  status : String
  error : Option String
  lora_path : Option String
deriving DecidableEq

structure TrainTaskOut where
  users : List UserDoc
  fs : DirState
  result : TrainTaskResult
  trainInvoked : Bool
deriving DecidableEq

/-- `train_identity_task(self, user_id, image_paths)`.  The clock ticks
`t0, t0+1` for the successive `datetime.utcnow()` reads that reach a
persisted write.  `trainInvoked` records whether `trainer.train` was
called.  The task's `except` clause (which marks the user failed and
re-raises to Celery's retry layer) is not exercised here: the embedded
stages signal failure through their explicit result channels
(`process_batch` returning `[]`, `validate_dataset` false,
`trainer.train` returning `False` via the `trainOk` oracle). -/
def train_identity_task (o : TrainOracles) (users : List UserDoc)
    (d : DirState) (uid : String) (image_paths : List String) (t0 : Nat) :
    TrainTaskOut :=
  let users1 : List UserDoc :=
    match findUser users uid with
    | none => users ++ [user_doc uid TrainingStatus.processing.value t0]
    | some _ =>
      updateUser uid
        (fun u => { u with training_status := TrainingStatus.processing.value
                           updated_at := t0 }) users
  let pb := process_batch o.faces image_paths d
  let d1 := pb.1
  let processed := pb.2
  if processed.isEmpty then
    { users := updateUser uid
        (fun u => { u with training_status := TrainingStatus.failed.value
                           updated_at := t0 + 1 }) users1
      fs := d1
      result := { status := "failed"
                  error := some "No faces detected in images"
                  lora_path := none }
      trainInvoked := false }
  else
    let d2 := create_caption_files processed d1
    if !validate_dataset d2 then
      { users := updateUser uid
          (fun u => { u with training_status := TrainingStatus.failed.value
                             updated_at := t0 + 1 }) users1
        fs := d2
        result := { status := "failed"
                    error := some "Invalid dataset"
                    lora_path := none }
        trainInvoked := false }
    else
      let lora := LORA_STORAGE_DIR ++ "/" ++ uid ++ ".safetensors"
      if o.trainOk then
        { users := updateUser uid
            (fun u => { u with lora_path := some lora
                               training_status := TrainingStatus.completed.value
                               updated_at := t0 + 1 }) users1
          fs := d2
          result := { status := "completed"
                      error := none
                      lora_path := some lora }
          trainInvoked := true }
      else
        { users := updateUser uid
            (fun u => { u with training_status := TrainingStatus.failed.value
                               updated_at := t0 + 1 }) users1
          fs := d2
          result := { status := "failed"
                      error := some "Training failed"
                      lora_path := none }
          trainInvoked := true }

/-! ### The training endpoint — `train_identity` in `app/api/routes.py` -/

/-- An `HTTPException(status_code, detail)`. -/
structure HErr where
  code : Nat
  detail : String
deriving DecidableEq

/-- The dictionary the `train_identity` endpoint returns: either the
idempotent short-circuit (`status "already_completed"` with the stored
LoRA path) or the enqueue acknowledgement (`status "processing"`; the
Celery task id is not modelled). -/
structure TrainRouteResp where
  user_id : String
  status : String
  lora_path : Option String
deriving DecidableEq

structure TrainRouteOut where
  users : List UserDoc
  enqueued : Option (String × List String)
  resp : Except HErr TrainRouteResp
deriving DecidableEq

/-- `train_identity(request, db)`.  `uploadDirThere` is
`upload_dir.exists()` and `globImages` the glob of valid image files in
it, both read-only probes of the uploads directory.  `enqueued` records
the `train_identity_task.delay(user_id, image_paths)` call, if it was
made; the users collection is returned so that "state unchanged" is
expressible. -/
def train_identity_route (users : List UserDoc) (uid : String)
    (uploadDirThere : Bool) (globImages : List String) : TrainRouteOut :=
  match findUser users uid with
  | none =>
    { users := users, enqueued := none, resp := .error ⟨404, "User not found"⟩ }
  | some u =>
    if u.training_status == TrainingStatus.processing.value then
      { users := users, enqueued := none
        resp := .error ⟨400, "Training already in progress"⟩ }
    else if u.training_status == TrainingStatus.completed.value then
      { users := users, enqueued := none
        resp := .ok { user_id := uid, status := "already_completed"
                      lora_path := u.lora_path } }
    else if !uploadDirThere then
      { users := users, enqueued := none
        resp := .error ⟨400, "No photos uploaded for this user"⟩ }
    else if globImages.isEmpty then
      { users := users, enqueued := none
        resp := .error ⟨400, "No valid images found"⟩ }
    else
      { users := users, enqueued := some (uid, globImages)
        resp := .ok { user_id := uid, status := "processing", lora_path := none } }

/-! ### Speech synthesis with retries —
`app/tts_engine/elevenlabs_client.py`, `voice_manager.py`

`ElevenLabsClient.generate_speech` performs one remote call and returns
the audio path or `None`; it is the oracle `gs`, indexed by a global
call counter (consecutive calls with identical arguments may differ,
the remote service being nondeterministic) and by the voice id used. -/

def ELEVENLABS_RETRY_ATTEMPTS : Nat := 2
def ELEVENLABS_DEFAULT_TURKISH_VOICE_ID : String := "21m00Tcm4TlvDq8ikWAM"
def SCRIPT_MAX_CHARACTERS : Nat := 1000

/-- The `for attempt in range(retry_attempts + 1)` loop of
`generate_speech_with_retry`: try up to `k` calls with `voice`,
returning the first success and the next value of the call counter. -/
def firstSuccess (gs : Nat → String → Option String) (voice : String) :
    Nat → Nat → Option String × Nat
  | start, 0 => (none, start)
  | start, Nat.succ k =>
    match gs start voice with
    | some r => (some r, start + 1)
    | none => firstSuccess gs voice (start + 1) k

/-- `ElevenLabsClient.generate_speech_with_retry`: `retry_attempts + 1`
tries with the requested voice, then a final fallback try with the
default Turkish voice. -/
def generate_speech_with_retry (gs : Nat → String → Option String)
    (retry_attempts : Nat) (voice : String) : Option String :=
  match firstSuccess gs voice 0 (retry_attempts + 1) with
  | (some r, _) => some r
  | (none, n) => gs n ELEVENLABS_DEFAULT_TURKISH_VOICE_ID

/-- `VoiceManager.generate_audio(text, voice_id, job_id)`: raises
`ValueError` when the script is over the length cap, otherwise calls
`generate_speech_with_retry` with the custom voice if set, else the
default Turkish voice. -/
def generate_audio (gs : Nat → String → Option String) (text : String)
    (voice_id : Option String) : Except String (Option String) :=
  if text.length > SCRIPT_MAX_CHARACTERS then
    .error "Script exceeds maximum length of 1000 characters"
  else
    .ok (generate_speech_with_retry gs ELEVENLABS_RETRY_ATTEMPTS
          (voice_id.getD ELEVENLABS_DEFAULT_TURKISH_VOICE_ID))

/-- `generate_tts_task(self, job_id, script_text, voice_id)`.  The task
is invoked directly (not through the queue) by `generate_video_task`;
with `called_directly` set, Celery's `self.retry(exc=e)` re-raises `e`,
so the embedded task propagates the failure to its caller. -/
def generate_tts_task (gs : Nat → String → Option String)
    (script : String) (voice_id : Option String) : Except String String :=
  match generate_audio gs script voice_id with
  | .error m => .error m
  | .ok none => .error "TTS generation failed"
  | .ok (some p) => .ok p

/-! ### The remaining pipeline stages — `app/queue/tasks.py`

Like `generate_tts_task`, the sub-tasks below are invoked directly by
`generate_video_task`, so their bodies run synchronously in its
`try`. -/

/-- `generate_talking_head_task(self, job_id, user_id, audio_path)`:
`faceImage` is `preprocessor.get_best_face_image(user_id)` and
`sadtalker face audio` the value `SadTalkerWrapper.generate_video`
returns for those inputs (the requested output location
`VIDEO_RAW_DIR/{job_id}.mp4` is what it returns on its success path). -/
def generate_talking_head_task (faceImage : Option String)
    (sadtalker : String → String → Option String) (audio_path : String) :
    Except String String :=
  match faceImage with
  | none => .error "No face image found for user"
  | some face =>
    match sadtalker face audio_path with
    | none => .error "Talking head generation failed"
    | some v => .ok v

/-- `compose_product_task(self, video_path, product_image_path)`:
`composer video product` is `ProductCompositor.process_with_product`,
which may raise (`.error`) or return `None` (`.ok none`); either way the
task answers with the incoming video path (`composed_path or
video_path`; the `except` clause returns the original video). -/
def compose_product_task (composer : String → String → Except Unit (Option String))
    (video_path : String) (product_image_path : Option String) : String :=
  match product_image_path with
  | none => video_path
  | some p =>
    match composer video_path p with
    | .error _ => video_path
    | .ok none => video_path
    | .ok (some c) => c

/-- The four enhancement collaborators and the final `shutil.move`.
Each filter takes the current working video and may raise (`.error`),
return a falsy value (`.ok none`) or return a path (`.ok (some p)`). -/
structure EnhanceOracles where
  restore : String → Except Unit (Option String)
  upscale : String → Except Unit (Option String)
  smooth : String → Except Unit (Option String)
  color : String → Except Unit (Option String)
  moveOk : Bool

/-- One `if result and result != current: current = result` step of
`enhance_video_task`. -/
def enhStep (cur : String) (r : Except Unit (Option String)) :
    Except Unit String :=
  match r with
  | .error _ => .error ()
  | .ok none => .ok cur
  | .ok (some p) => .ok (if p == cur then cur else p)

/-- `enhance_video_task(self, video_path, job_id)`: the filter chain,
then relocation to `VIDEO_FINAL_DIR/{job_id}.mp4` (skipped when the
working video is already there); any exception anywhere in the block
falls back to the incoming `video_path`. -/
def enhance_video_task (o : EnhanceOracles) (video_path job_id : String) :
    String :=
  let fp := VIDEO_FINAL_DIR ++ "/" ++ job_id ++ ".mp4"
  match enhStep video_path (o.restore video_path) with
  | .error _ => video_path
  | .ok c1 =>
    match enhStep c1 (o.upscale c1) with
    | .error _ => video_path
    | .ok c2 =>
      match enhStep c2 (o.smooth c2) with
      | .error _ => video_path
      | .ok c3 =>
        match enhStep c3 (o.color c3) with
        | .error _ => video_path
        | .ok c4 =>
          if c4 == fp then fp
          else if o.moveOk then fp
          else video_path

/-- `upload_to_s3_task(self, video_path, job_id)`: `uploadResult` is the
net outcome of `S3Client.upload_video` (any raised error is caught and
collapsed to `None`).  Only on success is the job's `s3_url` written. -/
def upload_to_s3_task (uploadResult : Option String) (jobs : List JobDoc)
    (job_id : String) : List JobDoc × Option String :=
  match uploadResult with
  | none => (jobs, none)
  | some u => (updateJob job_id (fun j => { j with s3_url := some u }) jobs, some u)

/-! ### The main pipeline task — `generate_video_task` in
`app/queue/tasks.py` -/

structure GenOracles where
  gs : Nat → String → Option String
  faceImage : Option String
  sadtalker : String → String → Option String
  composer : String → String → Except Unit (Option String)
  enh : EnhanceOracles
  s3Configured : Bool
  s3Upload : String → Option String

/-- The dictionary `generate_video_task` returns. -/
structure GenTaskResult where
  status : String
  error : Option String
  video_path : Option String
  s3_url : Option String
deriving DecidableEq

/-- Outcome of one invocation of `generate_video_task`: the jobs
collection afterwards, the sequence of `status` values the invocation
wrote to the job document (in write order), the stage sub-tasks it
invoked (in call order), and its return value. -/
structure GenTaskOut where
  jobs : List JobDoc
  statusWrites : List String
  calls : List String
  result : GenTaskResult
deriving DecidableEq

/-- `generate_video_task(self, job_id)`.  `t0` is the
`datetime.utcnow()` read of the completion timestamp.  The `except`
clause catches the exceptions propagating out of the TTS and
talking-head sub-tasks and marks the job failed with `str(e)`;
compositing, enhancement and upload swallow their own failures and
cannot reach it. -/
def generate_video_task (o : GenOracles) (jobs : List JobDoc)
    (users : List UserDoc) (job_id : String) (t0 : Nat) : GenTaskOut :=
  match findJob jobs job_id with
  | none =>
    { jobs := jobs, statusWrites := [], calls := []
      result := { status := "failed", error := some "Job not found"
                  video_path := none, s3_url := none } }
  | some job =>
    let jobs1 := updateJob job_id
      (fun j => { j with status := JobStatus.processing.value }) jobs
    match findUser users job.user_id with
    | none =>
      { jobs := updateJob job_id
          (fun j => { j with status := JobStatus.failed.value
                             error_message := some "User not found" }) jobs1
        statusWrites := [JobStatus.processing.value, JobStatus.failed.value]
        calls := []
        result := { status := "failed", error := some "User not found"
                    video_path := none, s3_url := none } }
    | some user =>
      if user.training_status != TrainingStatus.completed.value then
        { jobs := updateJob job_id
            (fun j => { j with status := JobStatus.failed.value
                               error_message := some "User identity not trained" }) jobs1
          statusWrites := [JobStatus.processing.value, JobStatus.failed.value]
          calls := []
          result := { status := "failed", error := some "User identity not trained"
                      video_path := none, s3_url := none } }
      else
        match generate_tts_task o.gs job.script_text user.voice_id with
        | .error m =>
          { jobs := updateJob job_id
              (fun j => { j with status := JobStatus.failed.value
                                 error_message := some m }) jobs1
            statusWrites := [JobStatus.processing.value, JobStatus.failed.value]
            calls := ["tts"]
            result := { status := "failed", error := some m
                        video_path := none, s3_url := none } }
        | .ok audio_path =>
          match generate_talking_head_task o.faceImage o.sadtalker audio_path with
          | .error m =>
            { jobs := updateJob job_id
                (fun j => { j with status := JobStatus.failed.value
                                   error_message := some m }) jobs1
              statusWrites := [JobStatus.processing.value, JobStatus.failed.value]
              calls := ["tts", "head"]
              result := { status := "failed", error := some m
                          video_path := none, s3_url := none } }
          | .ok raw_video =>
            let afterCompose :=
              if job.product_image_path.isSome then
                (compose_product_task o.composer raw_video job.product_image_path,
                 ["tts", "head", "compose"])
              else (raw_video, ["tts", "head"])
            let final_video_path := enhance_video_task o.enh afterCompose.1 job_id
            let calls1 := afterCompose.2 ++ ["enhance"]
            let afterUpload :=
              if o.s3Configured then
                let up := upload_to_s3_task (o.s3Upload final_video_path) jobs1 job_id
                (up.1, up.2, calls1 ++ ["upload"])
              else (jobs1, none, calls1)
            let jobs2 := updateJob job_id
              (fun j => { j with video_path := some final_video_path
                                 s3_url := afterUpload.2.1
                                 status := JobStatus.completed.value
                                 completed_at := some t0 }) afterUpload.1
            { jobs := jobs2
              statusWrites := [JobStatus.processing.value, JobStatus.completed.value]
              calls := afterUpload.2.2
              result := { status := "completed", error := none
                          video_path := some final_video_path
                          s3_url := afterUpload.2.1 } }

/-! ### The generation endpoint — `generate_video` in `app/api/routes.py` -/

structure GenReq where
  user_id : String
  script_text : String
  voice_sample : Option String
  product_image : Option String

/-- Collaborator results the endpoint consumes: the outcome of
`VoiceManager.create_user_voice` on the decoded sample, the generated
job UUID, and the UUID-named path under which a product image would be
saved. -/
structure GenRouteOracles where
  createVoice : Option String
  newJobId : String
  productPath : String

structure GenRouteOut where
  users : List UserDoc
  jobs : List JobDoc
  enqueued : Option String
  resp : Except HErr JobDoc
deriving DecidableEq

/-- `generate_video(request, db)`.  The identity checks (404 when the
user is absent, 400 when `training_status != "completed"`) come before
any write: before the voice-sample handling, the product-image save,
the `insert_one` of the job document and the
`generate_video_task.delay(job_id)` dispatch, which `enqueued`
records. -/
def generate_video_route (ro : GenRouteOracles) (users : List UserDoc)
    (jobs : List JobDoc) (req : GenReq) (now : Nat) : GenRouteOut :=
  match findUser users req.user_id with
  | none =>
    { users := users, jobs := jobs, enqueued := none
      resp := .error ⟨404, "User not found"⟩ }
  | some user =>
    if user.training_status != TrainingStatus.completed.value then
      { users := users, jobs := jobs, enqueued := none
        resp := .error ⟨400, "User identity not trained. Status: "
                              ++ user.training_status⟩ }
    else
      let users1 :=
        match req.voice_sample with
        | none => users
        | some _ =>
          match ro.createVoice with
          | some nv =>
            updateUser req.user_id
              (fun u => { u with voice_id := some nv, updated_at := now }) users
          | none => users
      let product_image_path := req.product_image.map (fun _ => ro.productPath)
      let doc := job_doc ro.newJobId req.user_id req.script_text
        product_image_path now
      { users := users1, jobs := jobs ++ [doc]
        enqueued := some ro.newJobId, resp := .ok doc }

/-! ### Shared lemmas about the collection operations -/

theorem find?_updateFirst {α : Type} (p : α → Bool) (f : α → α)
    (hpf : ∀ a, p a = true → p (f a) = true) (l : List α) :
    (updateFirst p f l).find? p = (l.find? p).map f := by
  induction l with
  | nil => simp [updateFirst]
  | cons x xs ih =>
    by_cases hx : p x = true
    · simp [updateFirst, hx, List.find?_cons, hpf x hx]
    · have hx' : p x = false := by simpa using hx
      simp [updateFirst, hx', List.find?_cons, ih]

theorem findUser_updateUser (uid : String) (f : UserDoc → UserDoc)
    (hf : ∀ u, (f u).user_id = u.user_id) (users : List UserDoc) :
    findUser (updateUser uid f users) uid = (findUser users uid).map f := by
  apply find?_updateFirst
  intro u hu
  simpa [hf u] using hu

theorem findJob_updateJob (jid : String) (f : JobDoc → JobDoc)
    (hf : ∀ j, (f j).job_id = j.job_id) (jobs : List JobDoc) :
    findJob (updateJob jid f jobs) jid = (findJob jobs jid).map f := by
  apply find?_updateFirst
  intro j hj
  simpa [hf j] using hj

theorem findUser_append (users more : List UserDoc) (uid : String)
    (h : findUser users uid = none) :
    findUser (users ++ more) uid = findUser more uid := by
  unfold findUser at *
  rw [List.find?_append, h]
  rfl

/-! ### Claims about the training endpoint -/

/-- C6: a training request for an Identity whose training status is
already Processing is rejected with a 400 "Training already in progress"
conflict; the users collection is untouched and no training task is
enqueued, so the Identity's persisted state (status, artifact location,
timestamps) is unchanged. -/
theorem C6_processing_conflict (users : List UserDoc) (uid : String)
    (dirThere : Bool) (imgs : List String) (u : UserDoc)
    (hu : findUser users uid = some u)
    (hp : u.training_status = TrainingStatus.processing.value) :
    (train_identity_route users uid dirThere imgs).resp
        = .error { code := 400, detail := "Training already in progress" }
    ∧ (train_identity_route users uid dirThere imgs).users = users
    ∧ (train_identity_route users uid dirThere imgs).enqueued = none := by
  simp [train_identity_route, hu, hp, TrainingStatus.value]

/-- Witness for C6 at a concrete store: one user in status
`"processing"`. -/
theorem C6_processing_conflict_witness :
    (train_identity_route
        [{ user_id := "u1", lora_path := none, voice_id := none
           training_status := "processing", created_at := 0, updated_at := 0 }]
        "u1" true ["a.jpg"]).resp
        = .error { code := 400, detail := "Training already in progress" }
    ∧ (train_identity_route
        [{ user_id := "u1", lora_path := none, voice_id := none
           training_status := "processing", created_at := 0, updated_at := 0 }]
        "u1" true ["a.jpg"]).users
        = [{ user_id := "u1", lora_path := none, voice_id := none
             training_status := "processing", created_at := 0, updated_at := 0 }]
    ∧ (train_identity_route
        [{ user_id := "u1", lora_path := none, voice_id := none
           training_status := "processing", created_at := 0, updated_at := 0 }]
        "u1" true ["a.jpg"]).enqueued = none :=
  C6_processing_conflict _ "u1" true ["a.jpg"]
    { user_id := "u1", lora_path := none, voice_id := none
      training_status := "processing", created_at := 0, updated_at := 0 }
    (by decide) (by decide)

/-- C7: a training request for an Identity whose training status is
Completed takes the idempotent short-circuit: the endpoint answers
`"already_completed"` with the stored artifact (LoRA) location, enqueues
no training task (so no preprocessing/captioning/training stage can
run), and leaves the users collection unchanged. -/
theorem C7_completed_short_circuit (users : List UserDoc) (uid : String)
    (dirThere : Bool) (imgs : List String) (u : UserDoc)
    (hu : findUser users uid = some u)
    (hc : u.training_status = TrainingStatus.completed.value) :
    (train_identity_route users uid dirThere imgs).resp
        = .ok { user_id := uid, status := "already_completed"
                lora_path := u.lora_path }
    ∧ (train_identity_route users uid dirThere imgs).users = users
    ∧ (train_identity_route users uid dirThere imgs).enqueued = none := by
  simp [train_identity_route, hu, hc, TrainingStatus.value]

/-- Witness for C7 at a concrete store: one completed user with a
stored LoRA path. -/
theorem C7_completed_short_circuit_witness :
    (train_identity_route
        [{ user_id := "u1", lora_path := some "/workspace/lora_storage/u1.safetensors"
           voice_id := none, training_status := "completed"
           created_at := 0, updated_at := 3 }]
        "u1" true ["a.jpg"]).resp
        = .ok { user_id := "u1", status := "already_completed"
                lora_path := some "/workspace/lora_storage/u1.safetensors" }
    ∧ (train_identity_route
        [{ user_id := "u1", lora_path := some "/workspace/lora_storage/u1.safetensors"
           voice_id := none, training_status := "completed"
           created_at := 0, updated_at := 3 }]
        "u1" true ["a.jpg"]).users
        = [{ user_id := "u1", lora_path := some "/workspace/lora_storage/u1.safetensors"
             voice_id := none, training_status := "completed"
             created_at := 0, updated_at := 3 }]
    ∧ (train_identity_route
        [{ user_id := "u1", lora_path := some "/workspace/lora_storage/u1.safetensors"
           voice_id := none, training_status := "completed"
           created_at := 0, updated_at := 3 }]
        "u1" true ["a.jpg"]).enqueued = none :=
  C7_completed_short_circuit _ "u1" true ["a.jpg"]
    { user_id := "u1", lora_path := some "/workspace/lora_storage/u1.safetensors"
      voice_id := none, training_status := "completed"
      created_at := 0, updated_at := 3 }
    (by decide) (by decide)

/-! ### Claims about the generation endpoint -/

/-- C2: a generation request whose referenced Identity is absent, or
whose training status is not Completed, is rejected by the
`generate_video` endpoint before any write: the response is an HTTP
error, the users and jobs collections are unchanged — in particular no
Job document is created — and no `generate_video_task` is dispatched,
so no Job of this request can ever be moved to Processing. -/
theorem C2_untrained_rejected_at_submission (ro : GenRouteOracles)
    (users : List UserDoc) (jobs : List JobDoc) (req : GenReq) (now : Nat)
    (h : findUser users req.user_id = none
        ∨ ∃ u, findUser users req.user_id = some u
            ∧ u.training_status ≠ TrainingStatus.completed.value) :
    (∃ e, (generate_video_route ro users jobs req now).resp = .error e)
    ∧ (generate_video_route ro users jobs req now).jobs = jobs
    ∧ (generate_video_route ro users jobs req now).users = users
    ∧ (generate_video_route ro users jobs req now).enqueued = none := by
  rcases h with h | ⟨u, hu, hne⟩
  · simp [generate_video_route, h]
  · have hb : (u.training_status != TrainingStatus.completed.value) = true := by
      simpa [bne_iff_ne] using hne
    simp [generate_video_route, hu, hb]

/-- Witness for C2: a store containing only a user in status
`"pending"`, queried for that user. -/
theorem C2_untrained_rejected_at_submission_witness :
    (∃ e, (generate_video_route
        { createVoice := none, newJobId := "j1", productPath := "p.jpg" }
        [{ user_id := "u1", lora_path := none, voice_id := none
           training_status := "pending", created_at := 0, updated_at := 0 }]
        []
        { user_id := "u1", script_text := "hello"
          voice_sample := none, product_image := none } 5).resp = .error e)
    ∧ (generate_video_route
        { createVoice := none, newJobId := "j1", productPath := "p.jpg" }
        [{ user_id := "u1", lora_path := none, voice_id := none
           training_status := "pending", created_at := 0, updated_at := 0 }]
        []
        { user_id := "u1", script_text := "hello"
          voice_sample := none, product_image := none } 5).jobs = []
    ∧ (generate_video_route
        { createVoice := none, newJobId := "j1", productPath := "p.jpg" }
        [{ user_id := "u1", lora_path := none, voice_id := none
           training_status := "pending", created_at := 0, updated_at := 0 }]
        []
        { user_id := "u1", script_text := "hello"
          voice_sample := none, product_image := none } 5).users
        = [{ user_id := "u1", lora_path := none, voice_id := none
             training_status := "pending", created_at := 0, updated_at := 0 }]
    ∧ (generate_video_route
        { createVoice := none, newJobId := "j1", productPath := "p.jpg" }
        [{ user_id := "u1", lora_path := none, voice_id := none
           training_status := "pending", created_at := 0, updated_at := 0 }]
        []
        { user_id := "u1", script_text := "hello"
          voice_sample := none, product_image := none } 5).enqueued = none :=
  C2_untrained_rejected_at_submission
    { createVoice := none, newJobId := "j1", productPath := "p.jpg" }
    [{ user_id := "u1", lora_path := none, voice_id := none
       training_status := "pending", created_at := 0, updated_at := 0 }]
    []
    { user_id := "u1", script_text := "hello"
      voice_sample := none, product_image := none } 5
    (Or.inr ⟨{ user_id := "u1", lora_path := none, voice_id := none
               training_status := "pending", created_at := 0, updated_at := 0 },
             by decide, by decide⟩)

/-! ### Claim about the S3 URL round trip -/

theorem eraseS3_cons_prefix (t : List Char) : eraseS3 (s3pat ++ t) = eraseS3 t := rfl

theorem splitFirstSlash_append (b k : List Char) (h : '/' ∉ b) :
    splitFirstSlash (b ++ '/' :: k) = some (b, k) := by
  induction b with
  | nil => simp [splitFirstSlash]
  | cons c cs ih =>
    have hc : ¬(c = '/') := by
      intro hc
      exact h (hc ▸ List.mem_cons_self c cs)
    have hcs : '/' ∉ cs := fun hm => h (List.mem_cons_of_mem c hm)
    simp [splitFirstSlash, hc, ih hcs]

/-- C9 counterexample: with the non-empty bucket `"b"` and the
non-empty object key `"s3://k"`, the key extracted from the URL
`upload_video` would produce (`"s3://b/s3://k"`) is `"k"`, not the
original key — `str.replace("s3://", "")` removes **every** occurrence
of `"s3://"`, not only the scheme prefix. -/
theorem C9_roundtrip_counterexample :
    upload_video true true true ['b'] ['s', '3', ':', '/', '/', 'k']
        = some (mkS3Url ['b'] ['s', '3', ':', '/', '/', 'k'])
    ∧ extract_key_from_url (mkS3Url ['b'] ['s', '3', ':', '/', '/', 'k'])
        = some ['k']
    ∧ (['k'] : List Char) ≠ ['s', '3', ':', '/', '/', 'k'] := by
  exact ⟨by decide, by decide, by decide⟩

/-- C9 (amended): the round trip holds for every non-empty bucket and
key provided the bucket contains no slash and the substring `"s3://"`
occurs nowhere in `bucket ++ "/" ++ key` (so the global
`str.replace("s3://", "")` removes exactly the scheme prefix): the key
extracted from any URL `upload_video` successfully returns is the
original object key. -/
theorem C9_roundtrip (cfg ff ok : Bool) (b k url : List Char)
    (hb : b ≠ []) (hk : k ≠ []) (hslash : '/' ∉ b)
    (hocc : eraseS3 (b ++ '/' :: k) = b ++ '/' :: k)
    (hup : upload_video cfg ff ok b k = some url) :
    extract_key_from_url url = some k := by
  have hurl : url = mkS3Url b k := by
    unfold upload_video at hup
    by_cases hc : (cfg && ff && ok) = true
    · rw [hc] at hup
      simpa using hup.symm
    · simp [hc] at hup
  subst hurl
  have hpre : s3pat.isPrefixOf (mkS3Url b k) = true := by
    simp [mkS3Url, s3pat, List.isPrefixOf]
  unfold extract_key_from_url
  rw [hpre]
  simp only [if_true]
  have : eraseS3 (mkS3Url b k) = b ++ '/' :: k := by
    unfold mkS3Url
    rw [List.append_assoc, eraseS3_cons_prefix, hocc]
  rw [this, splitFirstSlash_append b k hslash]

/-- Witness for C9 at bucket `"b"` and key `"k"`. -/
theorem C9_roundtrip_witness :
    extract_key_from_url (mkS3Url ['b'] ['k']) = some ['k'] :=
  C9_roundtrip true true true ['b'] ['k'] (mkS3Url ['b'] ['k'])
    (by decide) (by decide) (by decide) (by decide) (by decide)

/-! ### Claims about the training task -/

theorem foldl_pbStep_none (faces : Nat → String → Bool)
    (h : ∀ i p, faces i p = false) (l : List (Nat × String))
    (acc : DirState × List String) : l.foldl (pbStep faces) acc = acc := by
  induction l generalizing acc with
  | nil => rfl
  | cons x xs ih =>
    rw [List.foldl_cons]
    have hstep : pbStep faces acc x = acc := by
      simp [pbStep, h x.1 x.2]
    rw [hstep, ih]

theorem process_batch_none (faces : Nat → String → Bool)
    (paths : List String) (d : DirState) (h : ∀ i p, faces i p = false) :
    process_batch faces paths d = ({ d with dirThere := true }, []) := by
  unfold process_batch
  exact foldl_pbStep_none faces h _ _

/-- C4 counterexample: with one uploaded image in which no face is
detected, the training run marks the Identity Failed and never invokes
the training stage, but the reason it produces is
`"No faces detected in images"` — not the claimed `"no usable faces"` —
and that reason lives only in the task's return dictionary (the user
document has no field for it). -/
theorem C4_reason_counterexample :
    (train_identity_task { faces := fun _ _ => false, trainOk := true }
        [{ user_id := "u1", lora_path := none, voice_id := none
           training_status := "pending", created_at := 0, updated_at := 0 }]
        { dirThere := false, entries := [] } "u1" ["img0.jpg"] 1).result.status
        = "failed"
    ∧ (train_identity_task { faces := fun _ _ => false, trainOk := true }
        [{ user_id := "u1", lora_path := none, voice_id := none
           training_status := "pending", created_at := 0, updated_at := 0 }]
        { dirThere := false, entries := [] } "u1" ["img0.jpg"] 1).result.error
        = some "No faces detected in images"
    ∧ (train_identity_task { faces := fun _ _ => false, trainOk := true }
        [{ user_id := "u1", lora_path := none, voice_id := none
           training_status := "pending", created_at := 0, updated_at := 0 }]
        { dirThere := false, entries := [] } "u1" ["img0.jpg"] 1).result.error
        ≠ some "no usable faces"
    ∧ (train_identity_task { faces := fun _ _ => false, trainOk := true }
        [{ user_id := "u1", lora_path := none, voice_id := none
           training_status := "pending", created_at := 0, updated_at := 0 }]
        { dirThere := false, entries := [] } "u1" ["img0.jpg"] 1).trainInvoked
        = false := by
  refine ⟨by decide, by decide, by decide, by decide⟩

/-- C4 (amended): when zero images survive preprocessing, the
Identity's training status transitions to Failed and the training stage
is never invoked; the failure reason, carried in the task's return
value (the user record has no reason field), is the string
`"No faces detected in images"`. -/
theorem C4_no_usable_faces (o : TrainOracles) (users : List UserDoc)
    (d : DirState) (uid : String) (paths : List String) (t0 : Nat)
    (h : ∀ i p, o.faces i p = false) :
    (train_identity_task o users d uid paths t0).result
        = { status := "failed", error := some "No faces detected in images"
            lora_path := none }
    ∧ (train_identity_task o users d uid paths t0).trainInvoked = false
    ∧ ∃ u, findUser (train_identity_task o users d uid paths t0).users uid
          = some u
        ∧ u.training_status = TrainingStatus.failed.value := by
  have hpb := process_batch_none o.faces paths d h
  refine ⟨?_, ?_, ?_⟩
  · simp [train_identity_task, hpb]
  · simp [train_identity_task, hpb]
  · simp only [train_identity_task, hpb, List.isEmpty_nil, if_true]
    rcases hfind : findUser users uid with _ | u0
    · simp only [hfind]
      rw [findUser_updateUser uid
        (fun u => { u with training_status := TrainingStatus.failed.value
                           updated_at := t0 + 1 }) (fun u => rfl)]
      rw [findUser_append _ _ _ hfind]
      simp [findUser, user_doc, TrainingStatus.value, List.find?]
    · simp only [hfind]
      rw [findUser_updateUser uid
        (fun u => { u with training_status := TrainingStatus.failed.value
                           updated_at := t0 + 1 }) (fun u => rfl)]
      rw [findUser_updateUser uid
        (fun u => { u with training_status := TrainingStatus.processing.value
                           updated_at := t0 }) (fun u => rfl), hfind]
      simp [TrainingStatus.value]

/-- Witness for C4 (amended) at a concrete run: one image, a detector
that finds no face anywhere. -/
theorem C4_no_usable_faces_witness :
    (train_identity_task { faces := fun _ _ => false, trainOk := false }
        [] { dirThere := false, entries := [] } "u2" ["img0.jpg"] 4).result
        = { status := "failed", error := some "No faces detected in images"
            lora_path := none }
    ∧ (train_identity_task { faces := fun _ _ => false, trainOk := false }
        [] { dirThere := false, entries := [] } "u2" ["img0.jpg"] 4).trainInvoked
        = false
    ∧ ∃ u, findUser (train_identity_task { faces := fun _ _ => false, trainOk := false }
          [] { dirThere := false, entries := [] } "u2" ["img0.jpg"] 4).users "u2"
          = some u
        ∧ u.training_status = TrainingStatus.failed.value :=
  C4_no_usable_faces { faces := fun _ _ => false, trainOk := false }
    [] { dirThere := false, entries := [] } "u2" ["img0.jpg"] 4
    (fun _ _ => rfl)

/-! ### Claims about the generation pipeline task -/

theorem firstSuccess_none (gs : Nat → String → Option String) (voice : String)
    (h : ∀ n v, gs n v = none) :
    ∀ (k start : Nat), firstSuccess gs voice start k = (none, start + k) := by
  intro k
  induction k with
  | zero => intro start; rfl
  | succ n ih =>
    intro start
    unfold firstSuccess
    rw [h start voice, ih (start + 1)]
    have harith : start + 1 + n = start + (n + 1) := by omega
    rw [harith]

theorem generate_speech_with_retry_none (gs : Nat → String → Option String)
    (a : Nat) (voice : String) (h : ∀ n v, gs n v = none) :
    generate_speech_with_retry gs a voice = none := by
  unfold generate_speech_with_retry
  rw [firstSuccess_none gs voice h (a + 1) 0]
  exact h _ _

theorem generate_tts_task_exhausted (gs : Nat → String → Option String)
    (script : String) (voice_id : Option String)
    (hlen : script.length ≤ SCRIPT_MAX_CHARACTERS)
    (h : ∀ n v, gs n v = none) :
    generate_tts_task gs script voice_id = .error "TTS generation failed" := by
  unfold generate_tts_task generate_audio
  rw [if_neg (Nat.not_lt.mpr hlen)]
  rw [generate_speech_with_retry_none gs _ _ h]

/-- C5: when every remote speech-synthesis attempt fails — each of the
`ELEVENLABS_RETRY_ATTEMPTS + 1` tries with the requested voice and the
final fallback try with the default voice — the retry wrapper reports
failure, `generate_video_task` marks the Job Failed with the captured
reason `"TTS generation failed"` persisted in `error_message`, and the
talking-head video-synthesis stage is never invoked. -/
theorem C5_tts_exhaustion (o : GenOracles) (jobs : List JobDoc)
    (users : List UserDoc) (jid : String) (t0 : Nat) (j : JobDoc) (u : UserDoc)
    (hj : findJob jobs jid = some j)
    (hu : findUser users j.user_id = some u)
    (ht : u.training_status = TrainingStatus.completed.value)
    (hlen : j.script_text.length ≤ SCRIPT_MAX_CHARACTERS)
    (hgs : ∀ n v, o.gs n v = none) :
    (∀ v, generate_speech_with_retry o.gs ELEVENLABS_RETRY_ATTEMPTS v = none)
    ∧ (generate_video_task o jobs users jid t0).result.status = "failed"
    ∧ (∃ j', findJob (generate_video_task o jobs users jid t0).jobs jid = some j'
        ∧ j'.status = JobStatus.failed.value
        ∧ j'.error_message = some "TTS generation failed")
    ∧ "head" ∉ (generate_video_task o jobs users jid t0).calls
    ∧ (generate_video_task o jobs users jid t0).statusWrites
        = [JobStatus.processing.value, JobStatus.failed.value] := by
  have htts := generate_tts_task_exhausted o.gs j.script_text u.voice_id hlen hgs
  have hbt : (u.training_status != TrainingStatus.completed.value) = false := by
    simp [ht]
  refine ⟨fun v => generate_speech_with_retry_none o.gs _ v hgs, ?_, ?_, ?_, ?_⟩
  · simp [generate_video_task, hj, hu, hbt, htts]
  · simp only [generate_video_task, hj, hu, hbt, htts, Bool.false_eq_true,
      if_false]
    rw [findJob_updateJob jid
      (fun j => { j with status := JobStatus.failed.value
                         error_message := some "TTS generation failed" })
      (fun j => rfl)]
    rw [findJob_updateJob jid
      (fun j => { j with status := JobStatus.processing.value })
      (fun j => rfl), hj]
    exact ⟨_, rfl, rfl, rfl⟩
  · simp [generate_video_task, hj, hu, hbt, htts]
  · simp [generate_video_task, hj, hu, hbt, htts]

/-- Witness for C5: a pending job for a trained user, a TTS oracle that
fails every call. -/
theorem C5_tts_exhaustion_witness :
    (∀ v, generate_speech_with_retry (fun _ _ => none)
        ELEVENLABS_RETRY_ATTEMPTS v = none)
    ∧ (generate_video_task
        { gs := fun _ _ => none, faceImage := none
          sadtalker := fun _ _ => none, composer := fun _ _ => .ok none
          enh := { restore := fun _ => .ok none, upscale := fun _ => .ok none
                   smooth := fun _ => .ok none, color := fun _ => .ok none
                   moveOk := true }
          s3Configured := false, s3Upload := fun _ => none }
        [{ job_id := "j1", user_id := "u1", script_text := "hello"
           product_image_path := none, status := "pending", video_path := none
           s3_url := none, error_message := none, created_at := 2
           completed_at := none }]
        [{ user_id := "u1", lora_path := some "/workspace/lora_storage/u1.safetensors"
           voice_id := none, training_status := "completed"
           created_at := 0, updated_at := 1 }]
        "j1" 9).result.status = "failed"
    ∧ (∃ j', findJob (generate_video_task
        { gs := fun _ _ => none, faceImage := none
          sadtalker := fun _ _ => none, composer := fun _ _ => .ok none
          enh := { restore := fun _ => .ok none, upscale := fun _ => .ok none
                   smooth := fun _ => .ok none, color := fun _ => .ok none
                   moveOk := true }
          s3Configured := false, s3Upload := fun _ => none }
        [{ job_id := "j1", user_id := "u1", script_text := "hello"
           product_image_path := none, status := "pending", video_path := none
           s3_url := none, error_message := none, created_at := 2
           completed_at := none }]
        [{ user_id := "u1", lora_path := some "/workspace/lora_storage/u1.safetensors"
           voice_id := none, training_status := "completed"
           created_at := 0, updated_at := 1 }]
        "j1" 9).jobs "j1" = some j'
        ∧ j'.status = JobStatus.failed.value
        ∧ j'.error_message = some "TTS generation failed")
    ∧ "head" ∉ (generate_video_task
        { gs := fun _ _ => none, faceImage := none
          sadtalker := fun _ _ => none, composer := fun _ _ => .ok none
          enh := { restore := fun _ => .ok none, upscale := fun _ => .ok none
                   smooth := fun _ => .ok none, color := fun _ => .ok none
                   moveOk := true }
          s3Configured := false, s3Upload := fun _ => none }
        [{ job_id := "j1", user_id := "u1", script_text := "hello"
           product_image_path := none, status := "pending", video_path := none
           s3_url := none, error_message := none, created_at := 2
           completed_at := none }]
        [{ user_id := "u1", lora_path := some "/workspace/lora_storage/u1.safetensors"
           voice_id := none, training_status := "completed"
           created_at := 0, updated_at := 1 }]
        "j1" 9).calls
    ∧ (generate_video_task
        { gs := fun _ _ => none, faceImage := none
          sadtalker := fun _ _ => none, composer := fun _ _ => .ok none
          enh := { restore := fun _ => .ok none, upscale := fun _ => .ok none
                   smooth := fun _ => .ok none, color := fun _ => .ok none
                   moveOk := true }
          s3Configured := false, s3Upload := fun _ => none }
        [{ job_id := "j1", user_id := "u1", script_text := "hello"
           product_image_path := none, status := "pending", video_path := none
           s3_url := none, error_message := none, created_at := 2
           completed_at := none }]
        [{ user_id := "u1", lora_path := some "/workspace/lora_storage/u1.safetensors"
           voice_id := none, training_status := "completed"
           created_at := 0, updated_at := 1 }]
        "j1" 9).statusWrites
        = [JobStatus.processing.value, JobStatus.failed.value] :=
  C5_tts_exhaustion
    { gs := fun _ _ => none, faceImage := none
      sadtalker := fun _ _ => none, composer := fun _ _ => .ok none
      enh := { restore := fun _ => .ok none, upscale := fun _ => .ok none
               smooth := fun _ => .ok none, color := fun _ => .ok none
               moveOk := true }
      s3Configured := false, s3Upload := fun _ => none }
    [{ job_id := "j1", user_id := "u1", script_text := "hello"
       product_image_path := none, status := "pending", video_path := none
       s3_url := none, error_message := none, created_at := 2
       completed_at := none }]
    [{ user_id := "u1", lora_path := some "/workspace/lora_storage/u1.safetensors"
       voice_id := none, training_status := "completed"
       created_at := 0, updated_at := 1 }]
    "j1" 9
    { job_id := "j1", user_id := "u1", script_text := "hello"
      product_image_path := none, status := "pending", video_path := none
      s3_url := none, error_message := none, created_at := 2
      completed_at := none }
    { user_id := "u1", lora_path := some "/workspace/lora_storage/u1.safetensors"
      voice_id := none, training_status := "completed"
      created_at := 0, updated_at := 1 }
    (by decide) (by decide) (by decide) (by decide) (fun _ _ => rfl)

/-- C1 counterexample: re-invoking `generate_video_task` on a job that
is already terminal (status `"completed"`, completion timestamp 5) is
not guarded: the invocation writes `"processing"` over the terminal
status — a Completed→Processing transition — re-runs the pipeline, and
rewrites `completed_at` (a field other than the remote-storage
location) from 5 to the new clock value 9. -/
theorem C1_terminal_reentry_counterexample :
    (generate_video_task
        { gs := fun _ _ => some "/workspace/audio/j1.wav"
          faceImage := some "/workspace/datasets/u1/0000.jpg"
          sadtalker := fun _ _ => some "/workspace/video_raw/j1.mp4"
          composer := fun _ _ => .ok none
          enh := { restore := fun _ => .ok none, upscale := fun _ => .ok none
                   smooth := fun _ => .ok none, color := fun _ => .ok none
                   moveOk := true }
          s3Configured := false, s3Upload := fun _ => none }
        [{ job_id := "j1", user_id := "u1", script_text := "hi"
           product_image_path := none, status := "completed"
           video_path := some "/workspace/video_final/j1.mp4", s3_url := none
           error_message := none, created_at := 2, completed_at := some 5 }]
        [{ user_id := "u1", lora_path := some "/workspace/lora_storage/u1.safetensors"
           voice_id := none, training_status := "completed"
           created_at := 0, updated_at := 1 }]
        "j1" 9).statusWrites = ["processing", "completed"]
    ∧ findJob (generate_video_task
        { gs := fun _ _ => some "/workspace/audio/j1.wav"
          faceImage := some "/workspace/datasets/u1/0000.jpg"
          sadtalker := fun _ _ => some "/workspace/video_raw/j1.mp4"
          composer := fun _ _ => .ok none
          enh := { restore := fun _ => .ok none, upscale := fun _ => .ok none
                   smooth := fun _ => .ok none, color := fun _ => .ok none
                   moveOk := true }
          s3Configured := false, s3Upload := fun _ => none }
        [{ job_id := "j1", user_id := "u1", script_text := "hi"
           product_image_path := none, status := "completed"
           video_path := some "/workspace/video_final/j1.mp4", s3_url := none
           error_message := none, created_at := 2, completed_at := some 5 }]
        [{ user_id := "u1", lora_path := some "/workspace/lora_storage/u1.safetensors"
           voice_id := none, training_status := "completed"
           created_at := 0, updated_at := 1 }]
        "j1" 9).jobs "j1"
        = some { job_id := "j1", user_id := "u1", script_text := "hi"
                 product_image_path := none, status := "completed"
                 video_path := some "/workspace/video_final/j1.mp4"
                 s3_url := none, error_message := none, created_at := 2
                 completed_at := some 9 }
    ∧ (some 9 : Option Nat) ≠ some 5 := by
  refine ⟨by decide, by decide, by decide⟩

/-- C1 (amended): within a single invocation of `generate_video_task`,
the persisted status writes are monotone — nothing, or `"processing"`
followed by exactly one terminal status — so a job taken from Pending
moves Pending→Processing→{Completed, Failed} in that run.  The task
does not, however, guard re-entry: invoked again with the same job key
it rewrites a terminal status to Processing and re-runs the whole
pipeline, overwriting `video_path`, `s3_url`, `completed_at` or
`error_message` (see the counterexample). -/
theorem C1_single_run_status_monotone (o : GenOracles) (jobs : List JobDoc)
    (users : List UserDoc) (jid : String) (t0 : Nat) :
    (generate_video_task o jobs users jid t0).statusWrites = []
    ∨ (generate_video_task o jobs users jid t0).statusWrites
        = [JobStatus.processing.value, JobStatus.completed.value]
    ∨ (generate_video_task o jobs users jid t0).statusWrites
        = [JobStatus.processing.value, JobStatus.failed.value] := by
  unfold generate_video_task
  split
  · left; rfl
  · split
    · right; right; rfl
    · split
      · right; right; rfl
      · split
        · right; right; rfl
        · split
          · right; right; rfl
          · right; left; rfl

theorem findJob_updateJob_some (jid : String) (f : JobDoc → JobDoc)
    (hf : ∀ x, (f x).job_id = x.job_id) (jobs : List JobDoc) (j : JobDoc)
    (hj : findJob jobs jid = some j) :
    findJob (updateJob jid f jobs) jid = some (f j) := by
  rw [findJob_updateJob jid f hf, hj]
  rfl

/-- C3 counterexample: a job carrying a product image whose compositing
stage raises; the job still completes, but the recorded video location
is `"/workspace/video_final/j1.mp4"` — the enhancement stage's
relocation of the fallback video — and not the pre-compositing artifact
`"/workspace/video_raw/j1.mp4"` itself. -/
theorem C3_location_counterexample :
    (generate_video_task
        { gs := fun _ _ => some "/workspace/audio/j1.wav"
          faceImage := some "/workspace/datasets/u1/0000.jpg"
          sadtalker := fun _ _ => some "/workspace/video_raw/j1.mp4"
          composer := fun _ _ => .error ()
          enh := { restore := fun _ => .ok none, upscale := fun _ => .ok none
                   smooth := fun _ => .ok none, color := fun _ => .ok none
                   moveOk := true }
          s3Configured := false, s3Upload := fun _ => none }
        [{ job_id := "j1", user_id := "u1", script_text := "hi"
           product_image_path := some "/workspace/datasets/u1/products/p.jpg"
           status := "pending", video_path := none, s3_url := none
           error_message := none, created_at := 2, completed_at := none }]
        [{ user_id := "u1", lora_path := some "/workspace/lora_storage/u1.safetensors"
           voice_id := none, training_status := "completed"
           created_at := 0, updated_at := 1 }]
        "j1" 9).result.status = "completed"
    ∧ "compose" ∈ (generate_video_task
        { gs := fun _ _ => some "/workspace/audio/j1.wav"
          faceImage := some "/workspace/datasets/u1/0000.jpg"
          sadtalker := fun _ _ => some "/workspace/video_raw/j1.mp4"
          composer := fun _ _ => .error ()
          enh := { restore := fun _ => .ok none, upscale := fun _ => .ok none
                   smooth := fun _ => .ok none, color := fun _ => .ok none
                   moveOk := true }
          s3Configured := false, s3Upload := fun _ => none }
        [{ job_id := "j1", user_id := "u1", script_text := "hi"
           product_image_path := some "/workspace/datasets/u1/products/p.jpg"
           status := "pending", video_path := none, s3_url := none
           error_message := none, created_at := 2, completed_at := none }]
        [{ user_id := "u1", lora_path := some "/workspace/lora_storage/u1.safetensors"
           voice_id := none, training_status := "completed"
           created_at := 0, updated_at := 1 }]
        "j1" 9).calls
    ∧ (generate_video_task
        { gs := fun _ _ => some "/workspace/audio/j1.wav"
          faceImage := some "/workspace/datasets/u1/0000.jpg"
          sadtalker := fun _ _ => some "/workspace/video_raw/j1.mp4"
          composer := fun _ _ => .error ()
          enh := { restore := fun _ => .ok none, upscale := fun _ => .ok none
                   smooth := fun _ => .ok none, color := fun _ => .ok none
                   moveOk := true }
          s3Configured := false, s3Upload := fun _ => none }
        [{ job_id := "j1", user_id := "u1", script_text := "hi"
           product_image_path := some "/workspace/datasets/u1/products/p.jpg"
           status := "pending", video_path := none, s3_url := none
           error_message := none, created_at := 2, completed_at := none }]
        [{ user_id := "u1", lora_path := some "/workspace/lora_storage/u1.safetensors"
           voice_id := none, training_status := "completed"
           created_at := 0, updated_at := 1 }]
        "j1" 9).result.video_path = some "/workspace/video_final/j1.mp4"
    ∧ (some "/workspace/video_final/j1.mp4" : Option String)
        ≠ some "/workspace/video_raw/j1.mp4" := by
  refine ⟨by decide, by decide, by decide, by decide⟩

/-- C3 (amended): for a job carrying a product-image reference whose
compositing stage raises or returns an unsuccessful (null) result, the
job still reaches Completed; the compositing stage contributes nothing
(`compose_product_task` hands back exactly the pre-compositing
artifact), so the recorded video location is the enhancement stage's
output for the pre-compositing artifact — its relocation into the final
output directory when enhancement succeeds — and never a composited
output. -/
theorem C3_compose_failure_isolated (o : GenOracles) (jobs : List JobDoc)
    (users : List UserDoc) (jid : String) (t0 : Nat) (j : JobDoc) (u : UserDoc)
    (p audio vraw : String)
    (hj : findJob jobs jid = some j)
    (hp : j.product_image_path = some p)
    (hu : findUser users j.user_id = some u)
    (ht : u.training_status = TrainingStatus.completed.value)
    (htts : generate_tts_task o.gs j.script_text u.voice_id = .ok audio)
    (hhead : generate_talking_head_task o.faceImage o.sadtalker audio = .ok vraw)
    (hcomp : o.composer vraw p = .error () ∨ o.composer vraw p = .ok none) :
    compose_product_task o.composer vraw j.product_image_path = vraw
    ∧ (generate_video_task o jobs users jid t0).result.status = "completed"
    ∧ (generate_video_task o jobs users jid t0).statusWrites
        = [JobStatus.processing.value, JobStatus.completed.value]
    ∧ (generate_video_task o jobs users jid t0).result.video_path
        = some (enhance_video_task o.enh vraw jid)
    ∧ ∃ j', findJob (generate_video_task o jobs users jid t0).jobs jid = some j'
        ∧ j'.status = JobStatus.completed.value
        ∧ j'.video_path = some (enhance_video_task o.enh vraw jid) := by
  have hbt : (u.training_status != TrainingStatus.completed.value) = false := by
    simp [ht]
  have hcpt : compose_product_task o.composer vraw j.product_image_path = vraw := by
    rcases hcomp with h | h <;> simp [compose_product_task, hp, h]
  have hcpt' : compose_product_task o.composer vraw (some p) = vraw := by
    rw [hp] at hcpt
    exact hcpt
  refine ⟨hcpt, ?_, ?_, ?_, ?_⟩
  · simp [generate_video_task, hj, hu, hbt, htts, hhead]
  · simp [generate_video_task, hj, hu, hbt, htts, hhead]
  · simp [generate_video_task, hj, hu, hbt, htts, hhead, hp, hcpt']
  · simp only [generate_video_task, hj, hu, hbt, Bool.false_eq_true, if_false,
      htts, hhead, hp, Option.isSome_some, if_true]
    by_cases hs3 : o.s3Configured = true
    · simp only [hs3, if_true]
      rcases hup : o.s3Upload (enhance_video_task o.enh
          (compose_product_task o.composer vraw (some p)) jid) with _ | u'
      · simp only [upload_to_s3_task, hup]
        have h1 := findJob_updateJob_some jid
          (fun x => { x with status := JobStatus.processing.value })
          (fun x => rfl) jobs j hj
        have h2 := findJob_updateJob_some jid
          (fun x => { x with
            video_path := some (enhance_video_task o.enh
              (compose_product_task o.composer vraw (some p)) jid)
            s3_url := none
            status := JobStatus.completed.value
            completed_at := some t0 })
          (fun x => rfl) _ _ h1
        exact ⟨_, h2, rfl, by simp [hcpt']⟩
      · simp only [upload_to_s3_task, hup]
        have h1 := findJob_updateJob_some jid
          (fun x => { x with status := JobStatus.processing.value })
          (fun x => rfl) jobs j hj
        have h2 := findJob_updateJob_some jid
          (fun x => { x with s3_url := some u' }) (fun x => rfl) _ _ h1
        have h3 := findJob_updateJob_some jid
          (fun x => { x with
            video_path := some (enhance_video_task o.enh
              (compose_product_task o.composer vraw (some p)) jid)
            s3_url := some u'
            status := JobStatus.completed.value
            completed_at := some t0 })
          (fun x => rfl) _ _ h2
        exact ⟨_, h3, rfl, by simp [hcpt']⟩
    · simp only [Bool.not_eq_true] at hs3
      simp only [hs3, Bool.false_eq_true, if_false]
      have h1 := findJob_updateJob_some jid
        (fun x => { x with status := JobStatus.processing.value })
        (fun x => rfl) jobs j hj
      have h2 := findJob_updateJob_some jid
        (fun x => { x with
          video_path := some (enhance_video_task o.enh
            (compose_product_task o.composer vraw (some p)) jid)
          s3_url := none
          status := JobStatus.completed.value
          completed_at := some t0 })
        (fun x => rfl) _ _ h1
      exact ⟨_, h2, rfl, by simp [hcpt']⟩

/-- Witness for C3 (amended) at a concrete run: compositing returns an
unsuccessful (null) composition. -/
theorem C3_compose_failure_isolated_witness :
    compose_product_task (fun _ _ => .ok none) "/workspace/video_raw/j2.mp4"
        (some "/workspace/datasets/u1/products/p.jpg")
        = "/workspace/video_raw/j2.mp4"
    ∧ (generate_video_task
        { gs := fun _ _ => some "/workspace/audio/j2.wav"
          faceImage := some "/workspace/datasets/u1/0000.jpg"
          sadtalker := fun _ _ => some "/workspace/video_raw/j2.mp4"
          composer := fun _ _ => .ok none
          enh := { restore := fun _ => .ok none, upscale := fun _ => .ok none
                   smooth := fun _ => .ok none, color := fun _ => .ok none
                   moveOk := true }
          s3Configured := false, s3Upload := fun _ => none }
        [{ job_id := "j2", user_id := "u1", script_text := "hi"
           product_image_path := some "/workspace/datasets/u1/products/p.jpg"
           status := "pending", video_path := none, s3_url := none
           error_message := none, created_at := 2, completed_at := none }]
        [{ user_id := "u1", lora_path := some "/workspace/lora_storage/u1.safetensors"
           voice_id := none, training_status := "completed"
           created_at := 0, updated_at := 1 }]
        "j2" 9).result.status = "completed"
    ∧ (generate_video_task
        { gs := fun _ _ => some "/workspace/audio/j2.wav"
          faceImage := some "/workspace/datasets/u1/0000.jpg"
          sadtalker := fun _ _ => some "/workspace/video_raw/j2.mp4"
          composer := fun _ _ => .ok none
          enh := { restore := fun _ => .ok none, upscale := fun _ => .ok none
                   smooth := fun _ => .ok none, color := fun _ => .ok none
                   moveOk := true }
          s3Configured := false, s3Upload := fun _ => none }
        [{ job_id := "j2", user_id := "u1", script_text := "hi"
           product_image_path := some "/workspace/datasets/u1/products/p.jpg"
           status := "pending", video_path := none, s3_url := none
           error_message := none, created_at := 2, completed_at := none }]
        [{ user_id := "u1", lora_path := some "/workspace/lora_storage/u1.safetensors"
           voice_id := none, training_status := "completed"
           created_at := 0, updated_at := 1 }]
        "j2" 9).statusWrites
        = [JobStatus.processing.value, JobStatus.completed.value]
    ∧ (generate_video_task
        { gs := fun _ _ => some "/workspace/audio/j2.wav"
          faceImage := some "/workspace/datasets/u1/0000.jpg"
          sadtalker := fun _ _ => some "/workspace/video_raw/j2.mp4"
          composer := fun _ _ => .ok none
          enh := { restore := fun _ => .ok none, upscale := fun _ => .ok none
                   smooth := fun _ => .ok none, color := fun _ => .ok none
                   moveOk := true }
          s3Configured := false, s3Upload := fun _ => none }
        [{ job_id := "j2", user_id := "u1", script_text := "hi"
           product_image_path := some "/workspace/datasets/u1/products/p.jpg"
           status := "pending", video_path := none, s3_url := none
           error_message := none, created_at := 2, completed_at := none }]
        [{ user_id := "u1", lora_path := some "/workspace/lora_storage/u1.safetensors"
           voice_id := none, training_status := "completed"
           created_at := 0, updated_at := 1 }]
        "j2" 9).result.video_path
        = some (enhance_video_task
            { restore := fun _ => .ok none, upscale := fun _ => .ok none
              smooth := fun _ => .ok none, color := fun _ => .ok none
              moveOk := true } "/workspace/video_raw/j2.mp4" "j2")
    ∧ ∃ j', findJob (generate_video_task
        { gs := fun _ _ => some "/workspace/audio/j2.wav"
          faceImage := some "/workspace/datasets/u1/0000.jpg"
          sadtalker := fun _ _ => some "/workspace/video_raw/j2.mp4"
          composer := fun _ _ => .ok none
          enh := { restore := fun _ => .ok none, upscale := fun _ => .ok none
                   smooth := fun _ => .ok none, color := fun _ => .ok none
                   moveOk := true }
          s3Configured := false, s3Upload := fun _ => none }
        [{ job_id := "j2", user_id := "u1", script_text := "hi"
           product_image_path := some "/workspace/datasets/u1/products/p.jpg"
           status := "pending", video_path := none, s3_url := none
           error_message := none, created_at := 2, completed_at := none }]
        [{ user_id := "u1", lora_path := some "/workspace/lora_storage/u1.safetensors"
           voice_id := none, training_status := "completed"
           created_at := 0, updated_at := 1 }]
        "j2" 9).jobs "j2" = some j'
        ∧ j'.status = JobStatus.completed.value
        ∧ j'.video_path = some (enhance_video_task
            { restore := fun _ => .ok none, upscale := fun _ => .ok none
              smooth := fun _ => .ok none, color := fun _ => .ok none
              moveOk := true } "/workspace/video_raw/j2.mp4" "j2") :=
  C3_compose_failure_isolated
    { gs := fun _ _ => some "/workspace/audio/j2.wav"
      faceImage := some "/workspace/datasets/u1/0000.jpg"
      sadtalker := fun _ _ => some "/workspace/video_raw/j2.mp4"
      composer := fun _ _ => .ok none
      enh := { restore := fun _ => .ok none, upscale := fun _ => .ok none
               smooth := fun _ => .ok none, color := fun _ => .ok none
               moveOk := true }
      s3Configured := false, s3Upload := fun _ => none }
    [{ job_id := "j2", user_id := "u1", script_text := "hi"
       product_image_path := some "/workspace/datasets/u1/products/p.jpg"
       status := "pending", video_path := none, s3_url := none
       error_message := none, created_at := 2, completed_at := none }]
    [{ user_id := "u1", lora_path := some "/workspace/lora_storage/u1.safetensors"
       voice_id := none, training_status := "completed"
       created_at := 0, updated_at := 1 }]
    "j2" 9
    { job_id := "j2", user_id := "u1", script_text := "hi"
      product_image_path := some "/workspace/datasets/u1/products/p.jpg"
      status := "pending", video_path := none, s3_url := none
      error_message := none, created_at := 2, completed_at := none }
    { user_id := "u1", lora_path := some "/workspace/lora_storage/u1.safetensors"
      voice_id := none, training_status := "completed"
      created_at := 0, updated_at := 1 }
    "/workspace/datasets/u1/products/p.jpg" "/workspace/audio/j2.wav"
    "/workspace/video_raw/j2.mp4"
    (by decide) (by decide) (by decide) (by decide) (by decide) (by decide)
    (Or.inr rfl)

/-- C8 counterexample: an Identity that reaches Failed persists **no**
reason string.  After a training run fails (here: no usable faces), the
stored user record is the original one with only `training_status` and
`updated_at` rewritten; the `user_doc` schema has no error/reason field
at all — its only optional string fields, `lora_path` and `voice_id`,
are still `none` — while the human-readable reason exists only in the
task's (non-persisted) return value. -/
theorem C8_identity_no_reason_counterexample :
    findUser (train_identity_task { faces := fun _ _ => false, trainOk := true }
        [{ user_id := "u1", lora_path := none, voice_id := none
           training_status := "pending", created_at := 0, updated_at := 0 }]
        { dirThere := false, entries := [] } "u1" ["img0.jpg"] 3).users "u1"
        = some { user_id := "u1", lora_path := none, voice_id := none
                 training_status := "failed", created_at := 0, updated_at := 4 }
    ∧ (train_identity_task { faces := fun _ _ => false, trainOk := true }
        [{ user_id := "u1", lora_path := none, voice_id := none
           training_status := "pending", created_at := 0, updated_at := 0 }]
        { dirThere := false, entries := [] } "u1" ["img0.jpg"] 3).result.error
        = some "No faces detected in images" := by
  refine ⟨by decide, by decide⟩

/-- C8 (amended): a **Job** that is moved to Failed by
`generate_video_task` always has the captured human-readable reason
persisted in its `error_message` field (and echoed in the task's return
value); an **Identity** that reaches Failed persists no reason — the
user schema has no field for one (see the counterexample). -/
theorem C8_job_failure_reason (o : GenOracles) (jobs : List JobDoc)
    (users : List UserDoc) (jid : String) (t0 : Nat) (j : JobDoc)
    (hj : findJob jobs jid = some j)
    (hfail : (generate_video_task o jobs users jid t0).result.status = "failed") :
    ∃ j' m, findJob (generate_video_task o jobs users jid t0).jobs jid = some j'
        ∧ j'.status = JobStatus.failed.value
        ∧ j'.error_message = some m
        ∧ (generate_video_task o jobs users jid t0).result.error = some m := by
  have h1 := findJob_updateJob_some jid
    (fun x => { x with status := JobStatus.processing.value })
    (fun x => rfl) jobs j hj
  rcases hu2 : findUser users j.user_id with _ | u
  · have h2 := findJob_updateJob_some jid
      (fun x => { x with status := JobStatus.failed.value
                         error_message := some "User not found" })
      (fun x => rfl) _ _ h1
    have hfind : findJob (generate_video_task o jobs users jid t0).jobs jid
        = some { j with status := JobStatus.failed.value
                        error_message := some "User not found" } := by
      simp only [generate_video_task, hj, hu2]
      exact h2
    exact ⟨_, "User not found", hfind, rfl, rfl,
      by simp [generate_video_task, hj, hu2]⟩
  · by_cases ht : (u.training_status != TrainingStatus.completed.value) = true
    · have h2 := findJob_updateJob_some jid
        (fun x => { x with status := JobStatus.failed.value
                           error_message := some "User identity not trained" })
        (fun x => rfl) _ _ h1
      have hfind : findJob (generate_video_task o jobs users jid t0).jobs jid
          = some { j with status := JobStatus.failed.value
                          error_message := some "User identity not trained" } := by
        simp only [generate_video_task, hj, hu2, ht, if_true]
        exact h2
      exact ⟨_, "User identity not trained", hfind, rfl, rfl,
        by simp [generate_video_task, hj, hu2, ht]⟩
    · have ht' : (u.training_status != TrainingStatus.completed.value) = false := by
        simpa using ht
      rcases htts : generate_tts_task o.gs j.script_text u.voice_id with m | audio
      · have h2 := findJob_updateJob_some jid
          (fun x => { x with status := JobStatus.failed.value
                             error_message := some m })
          (fun x => rfl) _ _ h1
        have hfind : findJob (generate_video_task o jobs users jid t0).jobs jid
            = some { j with status := JobStatus.failed.value
                            error_message := some m } := by
          simp only [generate_video_task, hj, hu2, ht', Bool.false_eq_true,
            if_false, htts]
          exact h2
        exact ⟨_, m, hfind, rfl, rfl,
          by simp [generate_video_task, hj, hu2, ht', htts]⟩
      · rcases hhead : generate_talking_head_task o.faceImage o.sadtalker audio
            with m | vraw
        · have h2 := findJob_updateJob_some jid
            (fun x => { x with status := JobStatus.failed.value
                               error_message := some m })
            (fun x => rfl) _ _ h1
          have hfind : findJob (generate_video_task o jobs users jid t0).jobs jid
              = some { j with status := JobStatus.failed.value
                              error_message := some m } := by
            simp only [generate_video_task, hj, hu2, ht', Bool.false_eq_true,
              if_false, htts, hhead]
            exact h2
          exact ⟨_, m, hfind, rfl, rfl,
            by simp [generate_video_task, hj, hu2, ht', htts, hhead]⟩
        · exfalso
          simp [generate_video_task, hj, hu2, ht', htts, hhead] at hfail

/-- Witness for C8 (amended): a job whose owning user record is absent;
the run fails and persists the reason `"User not found"`. -/
theorem C8_job_failure_reason_witness :
    ∃ j' m, findJob (generate_video_task
        { gs := fun _ _ => none, faceImage := none
          sadtalker := fun _ _ => none, composer := fun _ _ => .ok none
          enh := { restore := fun _ => .ok none, upscale := fun _ => .ok none
                   smooth := fun _ => .ok none, color := fun _ => .ok none
                   moveOk := true }
          s3Configured := false, s3Upload := fun _ => none }
        [{ job_id := "j3", user_id := "ghost", script_text := "hi"
           product_image_path := none, status := "pending", video_path := none
           s3_url := none, error_message := none, created_at := 0
           completed_at := none }]
        [] "j3" 7).jobs "j3" = some j'
        ∧ j'.status = JobStatus.failed.value
        ∧ j'.error_message = some m
        ∧ (generate_video_task
            { gs := fun _ _ => none, faceImage := none
              sadtalker := fun _ _ => none, composer := fun _ _ => .ok none
              enh := { restore := fun _ => .ok none, upscale := fun _ => .ok none
                       smooth := fun _ => .ok none, color := fun _ => .ok none
                       moveOk := true }
              s3Configured := false, s3Upload := fun _ => none }
            [{ job_id := "j3", user_id := "ghost", script_text := "hi"
               product_image_path := none, status := "pending", video_path := none
               s3_url := none, error_message := none, created_at := 0
               completed_at := none }]
            [] "j3" 7).result.error = some m :=
  C8_job_failure_reason
    { gs := fun _ _ => none, faceImage := none
      sadtalker := fun _ _ => none, composer := fun _ _ => .ok none
      enh := { restore := fun _ => .ok none, upscale := fun _ => .ok none
               smooth := fun _ => .ok none, color := fun _ => .ok none
               moveOk := true }
      s3Configured := false, s3Upload := fun _ => none }
    [{ job_id := "j3", user_id := "ghost", script_text := "hi"
       product_image_path := none, status := "pending", video_path := none
       s3_url := none, error_message := none, created_at := 0
       completed_at := none }]
    [] "j3" 7
    { job_id := "j3", user_id := "ghost", script_text := "hi"
      product_image_path := none, status := "pending", video_path := none
      s3_url := none, error_message := none, created_at := 0
      completed_at := none }
    (by decide) (by decide)

/-! ### Claim about dataset completeness after captioning -/

theorem writeEntry_dirThere (d : DirState) (e : String × FileExt) :
    (writeEntry d e).dirThere = d.dirThere := rfl

theorem mem_writeEntry_of_mem (d : DirState) (e e' : String × FileExt)
    (h : e' ∈ d.entries) : e' ∈ (writeEntry d e).entries := by
  unfold writeEntry
  split
  · exact h
  · exact List.mem_cons_of_mem e h

theorem self_mem_writeEntry (d : DirState) (e : String × FileExt) :
    e ∈ (writeEntry d e).entries := by
  unfold writeEntry
  split
  · assumption
  · exact List.mem_cons_self e d.entries

theorem mem_of_mem_writeEntry (d : DirState) (e e' : String × FileExt)
    (h : e' ∈ (writeEntry d e).entries) : e' ∈ d.entries ∨ e' = e := by
  unfold writeEntry at h
  split at h
  · exact Or.inl h
  · rcases List.mem_cons.mp h with h | h
    · exact Or.inr h
    · exact Or.inl h

theorem foldl_pbStep_inv (faces : Nat → String → Bool)
    (l : List (Nat × String)) :
    ∀ init : DirState × List String,
    (l.foldl (pbStep faces) init).1.dirThere = init.1.dirThere
    ∧ (∀ e, e ∈ init.1.entries → e ∈ (l.foldl (pbStep faces) init).1.entries)
    ∧ (∀ s, s ∈ init.2 → s ∈ (l.foldl (pbStep faces) init).2)
    ∧ (∀ s, s ∈ (l.foldl (pbStep faces) init).2 →
        s ∈ init.2 ∨ (s, FileExt.jpg) ∈ (l.foldl (pbStep faces) init).1.entries)
    ∧ (∀ e, e ∈ (l.foldl (pbStep faces) init).1.entries →
        e ∈ init.1.entries
        ∨ (e.2 = FileExt.jpg ∧ e.1 ∈ (l.foldl (pbStep faces) init).2)) := by
  induction l with
  | nil =>
    intro init
    exact ⟨rfl, fun e h => h, fun s h => h, fun s h => Or.inl h,
      fun e h => Or.inl h⟩
  | cons x xs ih =>
    intro init
    rw [List.foldl_cons]
    by_cases hf : faces x.1 x.2 = true
    · have hstep : pbStep faces init x
          = (writeEntry init.1 (pad4 x.1, FileExt.jpg), init.2 ++ [pad4 x.1]) := by
        simp [pbStep, hf]
      rw [hstep]
      obtain ⟨ihdir, ihmono, ihstems, ihprov, ihjpg⟩ :=
        ih (writeEntry init.1 (pad4 x.1, FileExt.jpg), init.2 ++ [pad4 x.1])
      refine ⟨by rw [ihdir]; rfl, ?_, ?_, ?_, ?_⟩
      · intro e he
        exact ihmono e (mem_writeEntry_of_mem _ _ _ he)
      · intro s hs
        exact ihstems s (List.mem_append_left _ hs)
      · intro s hs
        rcases ihprov s hs with h | h
        · rcases List.mem_append.mp h with h | h
          · exact Or.inl h
          · have hs' : s = pad4 x.1 := by simpa using h
            subst hs'
            exact Or.inr (ihmono _ (self_mem_writeEntry _ _))
        · exact Or.inr h
      · intro e he
        rcases ihjpg e he with h | h
        · rcases mem_of_mem_writeEntry _ _ _ h with h | h
          · exact Or.inl h
          · subst h
            refine Or.inr ⟨rfl, ?_⟩
            exact ihstems _ (List.mem_append_right _ (List.mem_singleton.mpr rfl))
        · exact Or.inr h
    · have hstep : pbStep faces init x = init := by
        simp [pbStep, hf]
      rw [hstep]
      exact ih init

theorem create_caption_files_dirThere (stems : List String) (d : DirState) :
    (create_caption_files stems d).dirThere = d.dirThere := by
  induction stems generalizing d with
  | nil => rfl
  | cons s rest ih =>
    unfold create_caption_files at ih ⊢
    rw [List.foldl_cons, ih, writeEntry_dirThere]

theorem mem_create_caption_files_of_mem (stems : List String) (d : DirState)
    (e : String × FileExt) (h : e ∈ d.entries) :
    e ∈ (create_caption_files stems d).entries := by
  induction stems generalizing d with
  | nil => exact h
  | cons s rest ih =>
    unfold create_caption_files at ih ⊢
    rw [List.foldl_cons]
    exact ih _ (mem_writeEntry_of_mem _ _ _ h)

theorem txt_mem_create_caption_files (stems : List String) (d : DirState)
    (s : String) (h : s ∈ stems) :
    (s, FileExt.txt) ∈ (create_caption_files stems d).entries := by
  induction stems generalizing d with
  | nil => cases h
  | cons s0 rest ih =>
    unfold create_caption_files at ih ⊢
    rw [List.foldl_cons]
    rcases List.mem_cons.mp h with h | h
    · subst h
      exact mem_create_caption_files_of_mem rest _ _ (self_mem_writeEntry _ _)
    · exact ih _ h

theorem mem_of_mem_create_caption_files (stems : List String) (d : DirState)
    (e : String × FileExt) (h : e ∈ (create_caption_files stems d).entries) :
    e ∈ d.entries ∨ e.2 = FileExt.txt := by
  induction stems generalizing d with
  | nil => exact Or.inl h
  | cons s0 rest ih =>
    unfold create_caption_files at ih h
    rw [List.foldl_cons] at h
    rcases ih _ h with h' | h'
    · rcases mem_of_mem_writeEntry _ _ _ h' with h'' | h''
      · exact Or.inl h''
      · subst h''
        exact Or.inr rfl
    · exact Or.inr h'

/-- C10 counterexample: `validate_dataset` checks **every** `*.jpg` in
the dataset directory, not only the retained batch.  With a stale
uncaptioned image `9999.jpg` already in the directory, a batch that
retains one image (`0000`) and captions it still fails validation, and
the run takes the "Invalid dataset" Failed branch — so captioning the
batch alone does not establish `validate_dataset = True`. -/
theorem C10_stale_jpg_counterexample :
    (process_batch (fun _ _ => true) ["a.jpg"]
        { dirThere := true, entries := [("9999", FileExt.jpg)] }).2 = ["0000"]
    ∧ (∀ s, s ∈ (process_batch (fun _ _ => true) ["a.jpg"]
          { dirThere := true, entries := [("9999", FileExt.jpg)] }).2 →
        (s, FileExt.txt) ∈ (create_caption_files
            (process_batch (fun _ _ => true) ["a.jpg"]
              { dirThere := true, entries := [("9999", FileExt.jpg)] }).2
            (process_batch (fun _ _ => true) ["a.jpg"]
              { dirThere := true, entries := [("9999", FileExt.jpg)] }).1).entries)
    ∧ validate_dataset (create_caption_files
        (process_batch (fun _ _ => true) ["a.jpg"]
          { dirThere := true, entries := [("9999", FileExt.jpg)] }).2
        (process_batch (fun _ _ => true) ["a.jpg"]
          { dirThere := true, entries := [("9999", FileExt.jpg)] }).1) = false
    ∧ (train_identity_task { faces := fun _ _ => true, trainOk := true }
        [] { dirThere := true, entries := [("9999", FileExt.jpg)] }
        "u1" ["a.jpg"] 0).result.error = some "Invalid dataset" := by
  refine ⟨by decide, by decide, by decide, by decide⟩

/-- C10 (amended): starting from a caption-consistent dataset directory
(every existing `.jpg` has its `.txt` — the invariant the initial empty
directory satisfies and every completed run preserves), if preprocessing
retains at least one image then after `create_caption_files` every
retained image has a caption file alongside it, `validate_dataset`
accepts the directory, and `train_identity_task`'s "Invalid dataset"
Failed branch is unreachable in that run. -/
theorem C10_captions_complete (o : TrainOracles) (users : List UserDoc)
    (d : DirState) (uid : String) (paths : List String) (t0 : Nat)
    (hcons : ∀ s, (s, FileExt.jpg) ∈ d.entries → (s, FileExt.txt) ∈ d.entries)
    (hne : (process_batch o.faces paths d).2 ≠ []) :
    (∀ s, s ∈ (process_batch o.faces paths d).2 →
        (s, FileExt.txt) ∈ (create_caption_files (process_batch o.faces paths d).2
            (process_batch o.faces paths d).1).entries)
    ∧ validate_dataset (create_caption_files (process_batch o.faces paths d).2
        (process_batch o.faces paths d).1) = true
    ∧ (train_identity_task o users d uid paths t0).result.error
        ≠ some "Invalid dataset" := by
  obtain ⟨hdir, hmono, -, hprov, hjpg⟩ :=
    foldl_pbStep_inv o.faces paths.enum ({ d with dirThere := true }, [])
  have hfold : paths.enum.foldl (pbStep o.faces) ({ d with dirThere := true }, [])
      = process_batch o.faces paths d := rfl
  rw [hfold] at hdir hmono hprov hjpg
  have hA : ∀ s, s ∈ (process_batch o.faces paths d).2 →
      (s, FileExt.txt) ∈ (create_caption_files (process_batch o.faces paths d).2
          (process_batch o.faces paths d).1).entries :=
    fun s hs => txt_mem_create_caption_files _ _ s hs
  have hB : validate_dataset (create_caption_files (process_batch o.faces paths d).2
      (process_batch o.faces paths d).1) = true := by
    unfold validate_dataset
    have hdir2 : (create_caption_files (process_batch o.faces paths d).2
        (process_batch o.faces paths d).1).dirThere = true := by
      rw [create_caption_files_dirThere]
      exact hdir
    rw [hdir2]
    simp only [Bool.not_true, Bool.false_eq_true, if_false]
    rcases hstems : (process_batch o.faces paths d).2 with _ | ⟨s0, rest⟩
    · exact absurd hstems hne
    · have hs0 : s0 ∈ (process_batch o.faces paths d).2 := by
        rw [hstems]
        exact List.mem_cons_self s0 rest
      have hs0jpg : (s0, FileExt.jpg) ∈ (create_caption_files
          (process_batch o.faces paths d).2 (process_batch o.faces paths d).1).entries := by
        rcases hprov s0 hs0 with h | h
        · cases h
        · exact mem_create_caption_files_of_mem _ _ _ h
      rw [hstems] at hs0jpg
      have hmemfil : (s0, FileExt.jpg) ∈ ((create_caption_files (s0 :: rest)
          (process_batch o.faces paths d).1).entries.filter
            (fun e => e.2 == FileExt.jpg)) := by
        rw [List.mem_filter]
        exact ⟨hs0jpg, by simp⟩

      rw [if_neg]
      · rw [List.all_eq_true]
        intro e hefil
        have he := (List.mem_filter.mp hefil).1
        have hejpg : e.2 = FileExt.jpg := by
          have := (List.mem_filter.mp hefil).2
          simpa using this
        rcases mem_of_mem_create_caption_files _ _ _ he with h | h
        · rcases hjpg e h with h' | h'
          · obtain ⟨s, ext⟩ := e
            have hext : ext = FileExt.jpg := hejpg
            subst hext
            have htxt : (s, FileExt.txt) ∈ d.entries := hcons s h'
            have : (s, FileExt.txt) ∈ (process_batch o.faces paths d).1.entries :=
              hmono _ htxt
            rw [← hstems]
            exact decide_eq_true (mem_create_caption_files_of_mem _ _ _ this)
          · rw [← hstems]
            exact decide_eq_true (txt_mem_create_caption_files _ _ _
              (by rw [hstems] at h' ⊢; exact h'.2))
        · rw [hejpg] at h
          cases h
      · intro hempty
        rw [List.isEmpty_iff] at hempty
        rw [hempty] at hmemfil
        cases hmemfil
  refine ⟨hA, hB, ?_⟩
  have hne' : (process_batch o.faces paths d).2.isEmpty = false := by
    rcases hstems : (process_batch o.faces paths d).2 with _ | ⟨s0, rest⟩
    · exact absurd hstems hne
    · rfl
  simp only [train_identity_task, hne', Bool.false_eq_true, if_false, hB,
    Bool.not_true]
  by_cases htr : o.trainOk = true
  · simp [htr]
  · simp only [Bool.not_eq_true] at htr
    simp [htr]

/-- Witness for C10 at a concrete run: a fresh directory, one image
with a detected face. -/
theorem C10_captions_complete_witness :
    (∀ s, s ∈ (process_batch (fun _ _ => true) ["a.jpg"]
          { dirThere := false, entries := [] }).2 →
        (s, FileExt.txt) ∈ (create_caption_files
            (process_batch (fun _ _ => true) ["a.jpg"]
              { dirThere := false, entries := [] }).2
            (process_batch (fun _ _ => true) ["a.jpg"]
              { dirThere := false, entries := [] }).1).entries)
    ∧ validate_dataset (create_caption_files
        (process_batch (fun _ _ => true) ["a.jpg"]
          { dirThere := false, entries := [] }).2
        (process_batch (fun _ _ => true) ["a.jpg"]
          { dirThere := false, entries := [] }).1) = true
    ∧ (train_identity_task { faces := fun _ _ => true, trainOk := true }
        [] { dirThere := false, entries := [] } "u3" ["a.jpg"] 0).result.error
        ≠ some "Invalid dataset" :=
  C10_captions_complete { faces := fun _ _ => true, trainOk := true }
    [] { dirThere := false, entries := [] } "u3" ["a.jpg"] 0
    (fun s h => absurd h (List.not_mem_nil _)) (by decide)

end AvatarPipeline
